import Mathlib

/-!
Verification development for the CFME browser-automation harness:
a shallow embedding of `cfme/common/vm_console.py` (the `VMConsole`
console controller) and `cfme/infrastructure/datastore.py` (the
`Datastore` page object), together with models of the Python runtime
primitives they lean on (`str.split`, `re.match` on a literal pattern,
Python 2 `binascii.a2b_base64`) and of the external polling helper
`wait_for` (which is not part of the sources; it is modelled from the
specification's contract for it).

Browser-visible state is explicit: `BrowserState.lastSwitched` records
the window handle most recently passed to `switch_to_window`, and page
content (element presence, element text, the canvas data URL) is an
immutable environment read by element lookups.  A Python exception is
an `Except.error` carrying a `PyErr`; a Python function that can return
`None` returns an `Option` value, `Option.none` standing for `None`.
-/

/-- Python exception kinds that the embedded code can raise. -/
inductive PyErr where
  /-- `selenium.NoSuchElementException`: element lookup failed. -/
  | noSuchElement
  /-- `IndexError`: sequence index out of range (`url.split(",")[1]`). -/
  | indexErr
  /-- The decode failure raised by `base64.b64decode` on bad padding
      (a `TypeError` wrapping `binascii.Error` in Python 2); the
      specification calls it `DecodeError`. -/
  | decodeErr
  /-- `TimedOutError` raised by the polling helper on expiry. -/
  | timedOut
  deriving DecidableEq, Repr

/-! ## Python string primitives used by `vm_console.py` -/

/-- Python `s.split(sep)` for a one-character separator, on the list of
characters: splits at every occurrence of `sep`, keeping empty pieces,
so the result always has one more piece than there are separators
(in particular `"".split(",") == [""]`). -/
def pySplitChar (sep : Char) : List Char → List (List Char)
  | [] => [[]]
  | c :: rest =>
    match pySplitChar sep rest with
    | [] => if c = sep then [[], []] else [[c]]
    | h :: t => if c = sep then [] :: h :: t else (c :: h) :: t

/-- Python `s.split(sep)` on `String`s. -/
def pySplit (sep : Char) (s : String) : List String :=
  (pySplitChar sep s.data).map List.asString

/-- Matching a literal (metacharacter-free) regex pattern against the
start of a string, character by character — the behaviour of Python's
`re.match(pat, s)` when `pat` contains no regex metacharacters, as in
`re.match('Connected', banner)`.  Returns `true` iff a match exists. -/
def reMatchLit : List Char → List Char → Bool
  | [], _ => true
  | _ :: _, [] => false
  | p :: ps, c :: cs => p == c && reMatchLit ps cs

/-- Python `re.match(pat, s) is not None` for a literal pattern. -/
def re_match (pat s : String) : Bool :=
  reMatchLit pat.data s.data

/-! ## Python 2 `binascii.a2b_base64`, the engine of `base64.b64decode`

Translated from CPython 2.7 `Modules/binascii.c`: characters outside
the base64 alphabet are silently skipped; a pad character `=` ends the
input when it arrives at quad position 3, or at quad position 2 with
the next alphabet character also being `=`; the call fails
("Incorrect padding") exactly when, at the end, leftover bits remain
(the number of alphabet characters consumed is ≡ 1 mod 4). -/

/-- CPython's `table_a2b_base64`, as a partial map on 7-bit character
codes; `none` stands for the table's `-1` (invalid character).  Note
the table maps `'='` (code 61) to `0`, so `'='` counts as a valid
character for `findValidB64`. -/
def b64Table (c : Nat) : Option Nat :=
  if 65 ≤ c ∧ c ≤ 90 then some (c - 65)
  else if 97 ≤ c ∧ c ≤ 122 then some (c - 71)
  else if 48 ≤ c ∧ c ≤ 57 then some (c + 4)
  else if c = 43 then some 62
  else if c = 47 then some 63
  else if c = 61 then some 0
  else none

/-- CPython's `binascii_find_valid(s, len, 0)`: the first character of
`s` that is ≤ 0x7f and valid in `b64Table`, or `none`. -/
def findValidB64 : List Nat → Option Nat
  | [] => none
  | c :: rest =>
    if c ≤ 127 ∧ (b64Table c).isSome then some c else findValidB64 rest

/-- The decode loop of `binascii_a2b_base64`.  State: remaining input
character codes, `quadPos` (position in the current 4-character
quantum), `leftchar` (pending bits as a number) and `leftbits` (how
many pending bits).  Returns `none` on "Incorrect padding". -/
def a2bLoop : List Nat → Nat → Nat → Nat → Option (List Nat)
  | [], _, _, leftbits => if leftbits = 0 then some [] else none
  | c :: rest, quadPos, leftchar, leftbits =>
    if 127 < c ∨ c = 13 ∨ c = 10 ∨ c = 32 then
      a2bLoop rest quadPos leftchar leftbits
    else if c = 61 then
      if quadPos < 2 ∨ (quadPos = 2 ∧ findValidB64 rest ≠ some 61) then
        a2bLoop rest quadPos leftchar leftbits
      else
        some []
    else
      match b64Table c with
      | none => a2bLoop rest quadPos leftchar leftbits
      | some v =>
        let leftchar2 := leftchar * 64 + v
        let leftbits2 := leftbits + 6
        if 8 ≤ leftbits2 then
          (a2bLoop rest ((quadPos + 1) % 4) (leftchar2 % 2 ^ (leftbits2 - 8))
              (leftbits2 - 8)).map
            (fun bs => (leftchar2 / 2 ^ (leftbits2 - 8)) % 256 :: bs)
        else
          a2bLoop rest ((quadPos + 1) % 4) leftchar2 leftbits2

/-- Python 2 `base64.b64decode` on a string, yielding the decoded bytes
or `none` when `binascii` reports incorrect padding. -/
def b64decode (s : String) : Option (List Nat) :=
  a2bLoop (s.data.map Char.toNat) 0 0 0

/-! ## The `VMConsole` page object (`cfme/common/vm_console.py`) -/

/-- A `VMConsole` instance: the constructor arguments that matter to
the embedded methods (the selenium driver is the explicit state). -/
structure VMConsole where
  name : String
  console_handle : String
  appliance_handle : String
  deriving Repr

/-- The browser-side state a `VMConsole` method can change: the window
handle last passed to `selenium.switch_to_window`, the keystrokes sent
to the canvas, and the element ids clicked. -/
structure BrowserState where
  lastSwitched : String
  keysSent : List String
  clicked : List String
  deriving Repr

/-- The page content the console window currently exposes, read (not
written) by element lookups: the text of the `noVNC_status` banner
element (`none` when the element is absent), whether the
`noVNC_canvas` element is present, the data URL its `toDataURL` script
returns, and whether the `sendCtrlAltDelButton` element is present. -/
structure ConsolePage where
  bannerElem : Option String
  canvasPresent : Bool
  canvasDataUrl : String
  ctrlAltDelPresent : Bool
  deriving Repr

/-- `VMConsole.switch_to_appliance`. -/
def VMConsole.switch_to_appliance (c : VMConsole) (st : BrowserState) :
    BrowserState :=
  { st with lastSwitched := c.appliance_handle }

/-- `VMConsole.switch_to_console`. -/
def VMConsole.switch_to_console (c : VMConsole) (st : BrowserState) :
    BrowserState :=
  { st with lastSwitched := c.console_handle }

/-- `VMConsole.get_banner`: switch to the console window, read the
banner element's text (raising `NoSuchElementException` if it is
absent — in which case focus is *not* restored), switch back, return
the text. -/
def VMConsole.get_banner (c : VMConsole) (env : ConsolePage)
    (st : BrowserState) : Except PyErr String × BrowserState :=
  let st1 := c.switch_to_console st
  match env.bannerElem with
  | none => (.error .noSuchElement, st1)
  | some text => (.ok text, c.switch_to_appliance st1)

/-- The pure tail of `VMConsole.get_screen` applied to the data URL the
canvas script returned: `image_base64 = url.split(",")[1]` followed by
`base64.b64decode(image_base64)`. -/
def getScreenParse (url : String) : Except PyErr (List Nat) :=
  match pySplit ',' url with
  | _ :: payload :: _ =>
    match b64decode payload with
    | some bytes => .ok bytes
    | none => .error .decodeErr
  | _ => .error .indexErr

/-- `VMConsole.get_screen`: switch to the console window, look up the
canvas element, run the `toDataURL` script, split off the part after
the comma, base64-decode it, switch back and return the bytes.  A
failing lookup, a comma-less script result (`IndexError`) or a failing
decode raises with focus still on the console window. -/
def VMConsole.get_screen (c : VMConsole) (env : ConsolePage)
    (st : BrowserState) : Except PyErr (List Nat) × BrowserState :=
  let st1 := c.switch_to_console st
  if env.canvasPresent then
    match getScreenParse env.canvasDataUrl with
    | .ok bytes => (.ok bytes, c.switch_to_appliance st1)
    | .error e => (.error e, st1)
  else
    (.error .noSuchElement, st1)

/-- The banner test inside `VMConsole.is_connected`:
`re.match('Connected', banner) is not None`. -/
def isConnectedBanner (banner : String) : Bool :=
  re_match "Connected" banner

/-- `VMConsole.is_connected`: fetch the banner and match it against the
literal pattern `'Connected'`. -/
def VMConsole.is_connected (c : VMConsole) (env : ConsolePage)
    (st : BrowserState) : Except PyErr Bool × BrowserState :=
  match c.get_banner env st with
  | (.ok banner, st') => (.ok (isConnectedBanner banner), st')
  | (.error e, st') => (.error e, st')

/-- `VMConsole.send_keys`: switch to the console window, look up the
canvas element, send the text to it, switch back. -/
def VMConsole.send_keys (c : VMConsole) (env : ConsolePage)
    (st : BrowserState) (text : String) :
    Except PyErr Unit × BrowserState :=
  let st1 := c.switch_to_console st
  if env.canvasPresent then
    let st2 := { st1 with keysSent := st1.keysSent ++ [text] }
    (.ok (), c.switch_to_appliance st2)
  else
    (.error .noSuchElement, st1)

/-- `VMConsole.send_ctrl_alt_delete`: switch to the console window,
look up the `sendCtrlAltDelButton` element, click it, switch back. -/
def VMConsole.send_ctrl_alt_delete (c : VMConsole) (env : ConsolePage)
    (st : BrowserState) : Except PyErr Unit × BrowserState :=
  let st1 := c.switch_to_console st
  if env.ctrlAltDelPresent then
    let st2 := { st1 with clicked := st1.clicked ++ ["sendCtrlAltDelButton"] }
    (.ok (), c.switch_to_appliance st2)
  else
    (.error .noSuchElement, st1)

/-! ## The polling helper `wait_for`

The helper itself (`wait_for`/`utils.wait.wait_for`) is imported by the
sources but is not part of them. -/

/-- Modelled from the spec: the polling helper
`waitFor(predicate, intervalSeconds, timeoutSeconds, onRetry) -> bool`,
which polls the predicate once per interval (at elapsed seconds 0,
`delay`, `2*delay`, …) until it is satisfied or `numSec` seconds have
elapsed, and raises on timeout.  The predicate is a function of
elapsed time; on success the elapsed time of the succeeding poll is
returned.  `waitForLoop` is its loop, fuelled by the number of polls
remaining. -/
def waitForLoop (pred : Nat → Bool) (delay : Nat) :
    Nat → Nat → Except PyErr Nat
  | 0, _ => .error .timedOut
  | fuel + 1, t =>
    if pred t then .ok t else waitForLoop pred delay fuel (t + delay)

/-- Modelled from the spec: entry point of the polling helper — polls
at elapsed times `0, delay, 2*delay, …` while they do not exceed
`numSec`. -/
def waitFor (pred : Nat → Bool) (delay numSec : Nat) : Except PyErr Nat :=
  waitForLoop pred delay (numSec / delay + 1) 0

/-- `VMConsole.wait_for_connect`: `wait_for(func=lambda:
self.is_connected(), delay=1, num_sec=timeout)`.  The method body has
no `return` statement, so in Python the call evaluates to `None`
whenever `wait_for` does not raise — hence the `Option Bool` result
value, always `Option.none` on success.  `connected` gives the value
of `is_connected` as a function of elapsed time. -/
def wait_for_connect (connected : Nat → Bool) (timeout : Nat) :
    Except PyErr (Option Bool) :=
  (waitFor connected 1 timeout).map (fun _ => (none : Option Bool))

/-- `VMConsole.wait_for_connect` with its default argument
`timeout=5`. -/
def wait_for_connect_default (connected : Nat → Bool) :
    Except PyErr (Option Bool) :=
  wait_for_connect connected 5

/-! ## The `Datastore` page object (`cfme/infrastructure/datastore.py`) -/

/-- What the datastores page exposes for one datastore at one moment:
whether its quadicon is present on the datastores page (navigating to
the datastore's detail page clicks this quadicon, and the click raises
`NoSuchElementException` when it is absent), and whether
`sel.is_displayed` reports the quadicon as displayed after that
navigation. -/
structure DsPage where
  quadiconPresent : Bool
  quadDisplayed : Bool
  deriving Repr

/-- The body of the `Datastore.exists` property before its `except`
clause: navigate to the datastore (clicking its quadicon — raising
`NoSuchElementException` when absent), then `if sel.is_displayed(quad):
return True`; falling off the end of the function returns Python
`None`. -/
def dsExistsRaw (p : DsPage) : Except PyErr (Option Bool) :=
  if p.quadiconPresent then
    if p.quadDisplayed then .ok (some true) else .ok none
  else
    .error .noSuchElement

/-- The `Datastore.exists` property: `dsExistsRaw` with its
`except sel.NoSuchElementException: return False` handler. -/
def dsExists (p : DsPage) : Except PyErr (Option Bool) :=
  match dsExistsRaw p with
  | .error .noSuchElement => .ok (some false)
  | r => r

/-- The Python value `Datastore.exists` evaluates to (it never raises:
the one exception its body can produce is caught). -/
def dsExistsVal (p : DsPage) : Option Bool :=
  if p.quadiconPresent then
    if p.quadDisplayed then some true else none
  else
    some false

/-- Python `not x` on a value that is `True`, `False` or `None`
(`not None` is `True`). -/
def pyNot : Option Bool → Bool
  | some true => false
  | _ => true

/-- Python `x == False` on a value that is `True`, `False` or `None`
(`None == False` is `False`): the comparison the polling helper's
`fail_condition=False` performs, retrying while it holds. -/
def pyEqFalse : Option Bool → Bool
  | some false => true
  | _ => false

/-- `Datastore.wait_for_delete`: `wait_for(lambda: not self.exists,
fail_condition=False, num_sec=500, fail_func=sel.refresh)` — poll
until `not exists` differs from `False`, for at most 500 seconds.
`pages` gives the page state as a function of elapsed time. -/
def wait_for_delete (pages : Nat → DsPage) : Except PyErr Nat :=
  waitFor (fun t => !pyEqFalse (some (pyNot (dsExistsVal (pages t))))) 1 500

/-- `Datastore.wait_for_appear`: `wait_for(lambda: self.exists,
fail_condition=False, num_sec=1000, fail_func=sel.refresh)`. -/
def wait_for_appear (pages : Nat → DsPage) : Except PyErr Nat :=
  waitFor (fun t => !pyEqFalse (dsExistsVal (pages t))) 1 1000

/-- What `Datastore.wait_for_delete_all` can observe: whether the
page lookup raises `CandidateNotFound`, and whether the page displays
the text "No Records Found". -/
structure RecordsPage where
  candidateNotFound : Bool
  noRecords : Bool
  deriving Repr

/-- `Datastore.wait_for_delete_all`: inside `try`, refresh and return
`True` if "No Records Found" is displayed; `except CandidateNotFound:
return False`; falling off the end returns Python `None`. -/
def wait_for_delete_all (p : RecordsPage) : Except PyErr (Option Bool) :=
  if p.candidateNotFound then .ok (some false)
  else if p.noRecords then .ok (some true)
  else .ok none

/-- The world a `Datastore.delete` call acts on: whether the datastore
is present in the VMDB, the trace of `handle_alert(cancel=...)` calls,
and how many navigations have happened. -/
structure DsWorld where
  dsPresent : Bool
  alertsHandled : List Bool
  navCount : Nat
  deriving Repr

/-- `Datastore.delete(cancel)`: `force_navigate` to the datastore,
click `Remove from the VMDB` (which opens a confirmation alert), then
`sel.handle_alert(cancel=cancel)` — dismissing the alert when `cancel`
is true (the datastore stays), accepting it when false (the datastore
is removed). -/
def dsDelete (cancel : Bool) (w : DsWorld) : DsWorld :=
  let w1 := { w with navCount := w.navCount + 1 }
  let w2 := { w1 with alertsHandled := w1.alertsHandled ++ [cancel] }
  if cancel then w2 else { w2 with dsPresent := false }

/-- `Datastore.delete()` with its default argument `cancel=True`. -/
def dsDeleteDefault (w : DsWorld) : DsWorld :=
  dsDelete true w

/-- The banner schedule of the end-to-end scenario: "Connecting" for
the first two seconds, "Connected" from second 2 on. -/
def c5BannerAt (t : Nat) : String :=
  if t < 2 then "Connecting" else "Connected"

/-! ## Helper lemmas -/

theorem reMatchLit_eq_true_iff (p : List Char) :
    ∀ s : List Char, reMatchLit p s = true ↔ ∃ r, s = p ++ r := by
  induction p with
  | nil => intro s; simp [reMatchLit]
  | cons a ps ih =>
    intro s
    cases s with
    | nil => simp [reMatchLit]
    | cons c cs =>
      simp only [reMatchLit, Bool.and_eq_true, beq_iff_eq, ih,
        List.cons_append, List.cons.injEq]
      constructor
      · rintro ⟨rfl, r, rfl⟩; exact ⟨r, rfl, rfl⟩
      · rintro ⟨r, rfl, rfl⟩; exact ⟨rfl, r, rfl⟩

theorem isConnectedBanner_iff_connected_start (b : String) :
    isConnectedBanner b = true ↔ ∃ t : String, b = "Connected" ++ t := by
  unfold isConnectedBanner re_match
  rw [reMatchLit_eq_true_iff]
  constructor
  · rintro ⟨r, hr⟩
    refine ⟨⟨r⟩, String.ext ?_⟩
    rw [String.data_append]
    exact hr
  · rintro ⟨t, rfl⟩
    exact ⟨t.data, by rw [String.data_append]⟩

/-- C2: for every banner string `b`, `is_connected` returns `true` iff
`b` starts with the prefix "Connected" (anchored at the start), and
false for any other string, the empty string included. -/
theorem is_connected_iff_banner_starts_connected (c : VMConsole)
    (env : ConsolePage) (st : BrowserState) (b : String)
    (h : env.bannerElem = some b) :
    (c.is_connected env st).1 = .ok true ↔
      ∃ t : String, b = "Connected" ++ t := by
  have hres : (c.is_connected env st).1 = .ok (isConnectedBanner b) := by
    simp [VMConsole.is_connected, VMConsole.get_banner, h]
  rw [hres]
  simp only [Except.ok.injEq]
  exact isConnectedBanner_iff_connected_start b

/-- Witness for C2 at a concrete banner. -/
theorem is_connected_iff_banner_starts_connected_witness :
    (VMConsole.is_connected ⟨"vm", "w-console", "w-appliance"⟩
        ⟨some "Connected (encrypted)", true, "", true⟩
        ⟨"w-appliance", [], []⟩).1 = .ok true :=
  (is_connected_iff_banner_starts_connected _ _ _ "Connected (encrypted)"
      rfl).mpr ⟨" (encrypted)", by decide⟩

/-- C6: when the datastore's quadicon is absent, the `exists` property
evaluates to the value `False` — it neither raises (the
`NoSuchElementException` from the navigation click is caught) nor
yields any other value. -/
theorem ds_exists_false_when_quadicon_absent (p : DsPage)
    (h : p.quadiconPresent = false) : dsExists p = .ok (some false) := by
  simp [dsExists, dsExistsRaw, h]

/-- Witness for C6 at a concrete page. -/
theorem ds_exists_false_when_quadicon_absent_witness :
    dsExists ⟨false, false⟩ = .ok (some false) :=
  ds_exists_false_when_quadicon_absent ⟨false, false⟩ rfl

/-- C8: `wait_for_delete_all` returns `True` when the page shows
"No Records Found", and returns `False` — rather than propagating the
failure — when `CandidateNotFound` is raised. -/
theorem wait_for_delete_all_not_found_is_success (p : RecordsPage) :
    (p.candidateNotFound = false → p.noRecords = true →
        wait_for_delete_all p = .ok (some true)) ∧
    (p.candidateNotFound = true →
        wait_for_delete_all p = .ok (some false)) := by
  constructor
  · intro h1 h2; simp [wait_for_delete_all, h1, h2]
  · intro h1; simp [wait_for_delete_all, h1]

/-- Witness for C8 at concrete pages. -/
theorem wait_for_delete_all_not_found_is_success_witness :
    wait_for_delete_all ⟨false, true⟩ = .ok (some true) ∧
    wait_for_delete_all ⟨true, false⟩ = .ok (some false) :=
  ⟨(wait_for_delete_all_not_found_is_success ⟨false, true⟩).1 rfl rfl,
   (wait_for_delete_all_not_found_is_success ⟨true, false⟩).2 rfl⟩

/-- C10: `delete`'s `cancel` parameter defaults to `True`, so a
bare `delete()` navigates, opens the removal confirmation alert and
cancels it, leaving the datastore present; the datastore is removed
exactly when the caller passes `cancel=False` (and it was present). -/
theorem ds_delete_default_cancels (w : DsWorld) (cancel : Bool) :
    dsDeleteDefault w = dsDelete true w ∧
    (dsDeleteDefault w).navCount = w.navCount + 1 ∧
    (dsDeleteDefault w).alertsHandled = w.alertsHandled ++ [true] ∧
    (dsDeleteDefault w).dsPresent = w.dsPresent ∧
    (dsDelete cancel w).dsPresent = (cancel && w.dsPresent) := by
  refine ⟨rfl, ?_, ?_, ?_, ?_⟩ <;>
    cases cancel <;> simp [dsDeleteDefault, dsDelete]

theorem waitForLoop_ok_spec (pred : Nat → Bool) (d : Nat) :
    ∀ (fuel t0 t : Nat), waitForLoop pred d fuel t0 = .ok t →
      ∃ k, k < fuel ∧ t = t0 + k * d ∧ pred t = true ∧
        ∀ j, j < k → pred (t0 + j * d) = false := by
  intro fuel
  induction fuel with
  | zero => intro t0 t h; simp [waitForLoop] at h
  | succ n ih =>
    intro t0 t h
    by_cases hp : pred t0 = true
    · simp only [waitForLoop, hp, if_pos, Except.ok.injEq] at h
      subst h
      exact ⟨0, by omega, by omega, hp, by omega⟩
    · simp only [waitForLoop, hp, if_neg, Bool.false_eq_true,
        if_false] at h
      obtain ⟨k, hk, ht, hpt, hbefore⟩ := ih (t0 + d) t h
      refine ⟨k + 1, by omega, ?_, hpt, ?_⟩
      · rw [Nat.succ_mul]; omega
      · intro j hj
        cases j with
        | zero => simpa using (by simpa using hp : pred t0 = false)
        | succ j' =>
          have := hbefore j' (by omega)
          rw [Nat.succ_mul]
          have harith : t0 + (j' * d + d) = t0 + d + j' * d := by omega
          rw [harith]
          exact this

theorem waitForLoop_error_spec (pred : Nat → Bool) (d : Nat) :
    ∀ (fuel t0 : Nat) (e : PyErr), waitForLoop pred d fuel t0 = .error e →
      e = .timedOut := by
  intro fuel
  induction fuel with
  | zero =>
    intro t0 e h
    simp only [waitForLoop, Except.error.injEq] at h
    exact h.symm
  | succ n ih =>
    intro t0 e h
    by_cases hp : pred t0 = true
    · simp [waitForLoop, hp] at h
    · simp only [waitForLoop, hp, if_neg, Bool.false_eq_true,
        if_false] at h
      exact ih (t0 + d) e h

theorem waitForLoop_timeout_spec (pred : Nat → Bool) (d : Nat) :
    ∀ (fuel t0 : Nat), (∀ k, k < fuel → pred (t0 + k * d) = false) →
      waitForLoop pred d fuel t0 = .error .timedOut := by
  intro fuel
  induction fuel with
  | zero => intro t0 _; rfl
  | succ n ih =>
    intro t0 h
    have h0 : pred t0 = false := by simpa using h 0 (by omega)
    simp only [waitForLoop, h0, Bool.false_eq_true, if_false]
    apply ih
    intro k hk
    have := h (k + 1) (by omega)
    rw [Nat.succ_mul] at this
    have harith : t0 + (k * d + d) = t0 + d + k * d := by omega
    rw [harith] at this
    exact this

theorem waitFor_one_ok (pred : Nat → Bool) (numSec t : Nat)
    (h : waitFor pred 1 numSec = .ok t) :
    t ≤ numSec ∧ pred t = true ∧ ∀ s, s < t → pred s = false := by
  obtain ⟨k, hk, ht, hpt, hbefore⟩ :=
    waitForLoop_ok_spec pred 1 (numSec / 1 + 1) 0 t h
  rw [Nat.div_one] at hk
  have htk : t = k := by omega
  refine ⟨by omega, hpt, ?_⟩
  intro s hs
  have := hbefore s (by omega)
  simpa using this

theorem waitFor_one_timeout (pred : Nat → Bool) (numSec : Nat)
    (h : ∀ s, s ≤ numSec → pred s = false) :
    waitFor pred 1 numSec = .error .timedOut := by
  apply waitForLoop_timeout_spec
  intro k hk
  rw [Nat.div_one] at hk
  simpa using h k (by omega)

/-- C4: `wait_for_connect(timeout)` polls `is_connected` once per
second at elapsed times `0, 1, 2, …`; every execution either succeeds
at a poll time of at most `timeout` seconds (well within
`timeout + pollInterval`) or raises `TimedOutError`; it raises
`TimedOutError` exactly in the runs where `is_connected` was never
true up to the timeout; and the `timeout` argument defaults to 5. -/
theorem wait_for_connect_terminates (connected : Nat → Bool)
    (timeout : Nat) :
    (wait_for_connect connected timeout = .error .timedOut ∨
      ∃ t, t ≤ timeout ∧ connected t = true ∧
        (∀ s, s < t → connected s = false) ∧
        wait_for_connect connected timeout = .ok none) ∧
    ((∀ s, s ≤ timeout → connected s = false) →
      wait_for_connect connected timeout = .error .timedOut) ∧
    wait_for_connect_default connected = wait_for_connect connected 5 := by
  refine ⟨?_, ?_, rfl⟩
  · match hw : waitFor connected 1 timeout with
    | .error e =>
      left
      rw [waitForLoop_error_spec connected 1 _ 0 e hw] at hw
      simp [wait_for_connect, hw, Except.map]
    | .ok t =>
      right
      obtain ⟨h1, h2, h3⟩ := waitFor_one_ok connected timeout t hw
      exact ⟨t, h1, h2, h3, by simp [wait_for_connect, hw, Except.map]⟩
  · intro h
    have := waitFor_one_timeout connected timeout h
    simp [wait_for_connect, this, Except.map]

/-- Witness for C4: a predicate that is never true times out. -/
theorem wait_for_connect_terminates_witness :
    wait_for_connect (fun _ => false) 5 = .error .timedOut :=
  (wait_for_connect_terminates (fun _ => false) 5).2.1 (fun _ _ => rfl)

theorem waitFor_one_immediate (pred : Nat → Bool) (numSec : Nat)
    (h : pred 0 = true) : waitFor pred 1 numSec = .ok 0 := by
  unfold waitFor
  rw [Nat.div_one]
  simp [waitForLoop, h]

/-- C7: `wait_for_delete` and `wait_for_appear` poll with bounded
retries — any success comes within 500 s (delete) respectively 1000 s
(appear) of polling — and an absent quadicon ("not found") satisfies
`wait_for_delete`'s predicate at once: it is a terminal success, not an
error. -/
theorem wait_for_delete_appear_bounded (pages : Nat → DsPage) :
    (∀ t, wait_for_delete pages = .ok t → t ≤ 500) ∧
    (∀ t, wait_for_appear pages = .ok t → t ≤ 1000) ∧
    ((pages 0).quadiconPresent = false → wait_for_delete pages = .ok 0) := by
  refine ⟨?_, ?_, ?_⟩
  · intro t h; exact (waitFor_one_ok _ 500 t h).1
  · intro t h; exact (waitFor_one_ok _ 1000 t h).1
  · intro h
    apply waitFor_one_immediate
    simp [dsExistsVal, h, pyNot, pyEqFalse]

/-- Witness for C7: with the quadicon absent throughout,
`wait_for_delete` succeeds at once, within its bound. -/
theorem wait_for_delete_appear_bounded_witness :
    wait_for_delete (fun _ => ⟨false, false⟩) = .ok 0 ∧ (0 : Nat) ≤ 500 := by
  have h := wait_for_delete_appear_bounded (fun _ => ⟨false, false⟩)
  have h3 := h.2.2 rfl
  exact ⟨h3, h.1 0 h3⟩

/-- C5: with a banner that reads "Connecting" for the first 2 seconds
and "Connected" from then on, the poll inside `wait_for_connect(5)`
succeeds at second 2 (within 6 seconds) — but the call itself evaluates
to Python `None`, not `True`, because the method body never returns the
helper's result; and `get_screen` on a console whose canvas yields a
PNG data URL returns bytes starting with the PNG signature
`89 50 4E 47 0D 0A 1A 0A`. -/
theorem wait_for_connect_returns_none_not_true :
    waitFor (fun t => isConnectedBanner (c5BannerAt t)) 1 5 = .ok 2 ∧
    wait_for_connect (fun t => isConnectedBanner (c5BannerAt t)) 5 =
      .ok none ∧
    (Option.none ≠ some true) ∧
    (VMConsole.get_screen ⟨"vm", "w-console", "w-appliance"⟩
        ⟨some "Connected", true, "data:image/png;base64,iVBORw0KGgo=", true⟩
        ⟨"w-appliance", [], []⟩).1 =
      .ok [137, 80, 78, 71, 13, 10, 26, 10] := by
  refine ⟨rfl, rfl, by simp, rfl⟩

theorem pySplitChar_ne_nil (sep : Char) :
    ∀ s : List Char, pySplitChar sep s ≠ [] := by
  intro s
  cases s with
  | nil => simp [pySplitChar]
  | cons c rest =>
    simp only [pySplitChar]
    split <;> split <;> simp

theorem pySplitChar_of_not_mem (sep : Char) :
    ∀ s : List Char, sep ∉ s → pySplitChar sep s = [s] := by
  intro s
  induction s with
  | nil => intro _; rfl
  | cons c rest ih =>
    intro h
    have hc : ¬c = sep := fun e => h (by simp [e])
    have hrest : sep ∉ rest := fun m => h (List.mem_cons_of_mem _ m)
    simp only [pySplitChar, ih hrest]
    simp [hc]

theorem pySplitChar_append (sep : Char) :
    ∀ a b : List Char, sep ∉ a →
      pySplitChar sep (a ++ sep :: b) = a :: pySplitChar sep b := by
  intro a
  induction a with
  | nil =>
    intro b _
    simp only [List.nil_append, pySplitChar]
    cases h : pySplitChar sep b with
    | nil => exact absurd h (pySplitChar_ne_nil sep b)
    | cons x t => simp [h]
  | cons c a2 ih =>
    intro b h
    have hc : ¬c = sep := fun e => h (by simp [e])
    have ha : sep ∉ a2 := fun m => h (List.mem_cons_of_mem _ m)
    simp only [List.cons_append, pySplitChar, List.append_eq]
    rw [ih b ha]
    simp [hc]

theorem asString_data (s : String) : s.data.asString = s := by
  cases s
  rfl

theorem getScreenParse_data_url (payload : String)
    (h : ',' ∉ payload.data) :
    getScreenParse ("data:image/png;base64," ++ payload) =
      match b64decode payload with
      | some bytes => .ok bytes
      | none => .error .decodeErr := by
  have h1 : ("data:image/png;base64," ++ payload).data
      = "data:image/png;base64".data ++ ',' :: payload.data := by
    rw [String.data_append]
    rfl
  have h2 : ',' ∉ "data:image/png;base64".data := by decide
  unfold getScreenParse pySplit
  rw [h1, pySplitChar_append ',' _ _ h2, pySplitChar_of_not_mem ',' _ h]
  simp only [List.map_cons, List.map_nil, asString_data]

theorem get_screen_fst (c : VMConsole) (env : ConsolePage)
    (st : BrowserState) (h : env.canvasPresent = true) :
    (c.get_screen env st).1 = getScreenParse env.canvasDataUrl := by
  unfold VMConsole.get_screen
  rw [h]
  cases hp : getScreenParse env.canvasDataUrl <;> simp [hp]

/-- C3 (amended): on a data URL of the standard shape
`data:image/png;base64,<payload>` (payload comma-free), `get_screen`
strips everything up to the comma and base64-decodes exactly the
payload, returning the decoded bytes; it fails with the decode error
precisely when the base64 decode itself fails — PNG validity of the
decoded bytes is never checked. -/
theorem get_screen_strips_and_decodes (c : VMConsole) (env : ConsolePage)
    (st : BrowserState) (payload : String)
    (hc : env.canvasPresent = true)
    (hurl : env.canvasDataUrl = "data:image/png;base64," ++ payload)
    (hnc : ',' ∉ payload.data) :
    (c.get_screen env st).1 =
      match b64decode payload with
      | some bytes => .ok bytes
      | none => .error .decodeErr := by
  rw [get_screen_fst c env st hc, hurl, getScreenParse_data_url payload hnc]

/-- Witness for C3 at a concrete bad payload (7 base64 characters:
incorrect padding), where `get_screen` raises the decode error. -/
theorem get_screen_strips_and_decodes_witness :
    (VMConsole.get_screen ⟨"vm", "w-console", "w-appliance"⟩
        ⟨some "Connected", true, "data:image/png;base64,aGVsbG8", true⟩
        ⟨"w-appliance", [], []⟩).1 = .error .decodeErr := by
  have h := get_screen_strips_and_decodes ⟨"vm", "w-console", "w-appliance"⟩
    ⟨some "Connected", true, "data:image/png;base64,aGVsbG8", true⟩
    ⟨"w-appliance", [], []⟩ "aGVsbG8" rfl rfl (by decide)
  rw [h]
  rfl

/-- Counterexample to C3 as stated: the payload `aGVsbG8=` is valid
base64 but decodes to the bytes of "hello", which are not a PNG (they
do not start with the PNG signature); `get_screen` nevertheless
returns them without any `DecodeError`. -/
theorem get_screen_no_png_validation :
    (VMConsole.get_screen ⟨"vm", "w-console", "w-appliance"⟩
        ⟨some "Connected", true, "data:image/png;base64,aGVsbG8=", true⟩
        ⟨"w-appliance", [], []⟩).1 = .ok [104, 101, 108, 108, 111] ∧
    [104, 101, 108, 108, 111].take 8 ≠ [137, 80, 78, 71, 13, 10, 26, 10] :=
  ⟨rfl, by decide⟩

/-- C9: a script result with no comma makes `get_screen` raise an
`IndexError` at `url.split(",")[1]` — not a `DecodeError`: the
prefix-stripping step is not total over arbitrary strings. -/
theorem get_screen_index_error_on_no_comma (c : VMConsole)
    (env : ConsolePage) (st : BrowserState)
    (hc : env.canvasPresent = true)
    (h : ',' ∉ env.canvasDataUrl.data) :
    (c.get_screen env st).1 = .error .indexErr ∧
    PyErr.indexErr ≠ PyErr.decodeErr := by
  refine ⟨?_, by decide⟩
  rw [get_screen_fst c env st hc]
  unfold getScreenParse pySplit
  rw [pySplitChar_of_not_mem ',' _ h]
  rfl

/-- Witness for C9 at a concrete comma-less script result. -/
theorem get_screen_index_error_on_no_comma_witness :
    (VMConsole.get_screen ⟨"vm", "w-console", "w-appliance"⟩
        ⟨some "Connected", true, "garbage", true⟩
        ⟨"w-appliance", [], []⟩).1 = .error .indexErr :=
  (get_screen_index_error_on_no_comma ⟨"vm", "w-console", "w-appliance"⟩
    ⟨some "Connected", true, "garbage", true⟩
    ⟨"w-appliance", [], []⟩ rfl (by decide)).1

/-- C1 (amended): every `VMConsole` operation that returns normally
(`get_banner`, `get_screen`, `send_keys`, `send_ctrl_alt_delete`)
leaves the browser focus — the last window handle switched to — on the
appliance window.  (When an operation's element lookup or decode step
raises, focus instead stays on the console window: there is no
`try`/`finally`; see the counterexample.) -/
theorem console_ops_restore_focus_on_success (c : VMConsole)
    (env : ConsolePage) (st : BrowserState) (text : String) :
    (∀ r st2, c.get_banner env st = (.ok r, st2) →
        st2.lastSwitched = c.appliance_handle) ∧
    (∀ r st2, c.get_screen env st = (.ok r, st2) →
        st2.lastSwitched = c.appliance_handle) ∧
    (∀ r st2, c.send_keys env st text = (.ok r, st2) →
        st2.lastSwitched = c.appliance_handle) ∧
    (∀ r st2, c.send_ctrl_alt_delete env st = (.ok r, st2) →
        st2.lastSwitched = c.appliance_handle) := by
  refine ⟨?_, ?_, ?_, ?_⟩
  · intro r st2 h
    unfold VMConsole.get_banner at h
    cases hb : env.bannerElem with
    | none => rw [hb] at h; simp at h
    | some t =>
      rw [hb] at h
      simp only [Prod.mk.injEq] at h
      rw [← h.2]
      rfl
  · intro r st2 h
    unfold VMConsole.get_screen at h
    cases hcp : env.canvasPresent with
    | false => rw [hcp] at h; simp at h
    | true =>
      rw [hcp] at h
      simp only [if_true] at h
      cases hp : getScreenParse env.canvasDataUrl with
      | error e => rw [hp] at h; simp at h
      | ok bytes =>
        rw [hp] at h
        simp only [Prod.mk.injEq] at h
        rw [← h.2]
        rfl
  · intro r st2 h
    unfold VMConsole.send_keys at h
    cases hcp : env.canvasPresent with
    | false => rw [hcp] at h; simp at h
    | true =>
      rw [hcp] at h
      simp only [if_true, Prod.mk.injEq] at h
      rw [← h.2]
      rfl
  · intro r st2 h
    unfold VMConsole.send_ctrl_alt_delete at h
    cases hcp : env.ctrlAltDelPresent with
    | false => rw [hcp] at h; simp at h
    | true =>
      rw [hcp] at h
      simp only [if_true, Prod.mk.injEq] at h
      rw [← h.2]
      rfl

/-- Witness for C1 (amended): a successful `get_banner` ends with the
appliance window focused. -/
theorem console_ops_restore_focus_on_success_witness :
    (BrowserState.mk "w-appliance" [] []).lastSwitched = "w-appliance" :=
  (console_ops_restore_focus_on_success
      ⟨"vm", "w-console", "w-appliance"⟩
      ⟨some "Connecting", true, "", true⟩
      ⟨"w-console", [], []⟩ "cirros").1
    "Connecting" ⟨"w-appliance", [], []⟩ rfl

/-- Counterexample to C1 as stated: with the banner element absent,
`get_banner` raises `NoSuchElementException` after switching to the
console window and never switches back, so the last handle switched to
is the console window's, not the appliance window's. -/
theorem get_banner_error_leaves_console_focused :
    (VMConsole.get_banner ⟨"vm", "w-console", "w-appliance"⟩
        ⟨none, true, "", true⟩ ⟨"w-appliance", [], []⟩).1 =
      .error .noSuchElement ∧
    (VMConsole.get_banner ⟨"vm", "w-console", "w-appliance"⟩
        ⟨none, true, "", true⟩
        ⟨"w-appliance", [], []⟩).2.lastSwitched = "w-console" ∧
    "w-console" ≠ "w-appliance" :=
  ⟨rfl, rfl, by decide⟩
